import Mathlib

/-!
# Verification of the search/chat request-plumbing layer

Shallow embedding of the original logic of the single-page application:
the paginated keyword-search state machine and its pagination display
helper (`Search` page), the chat session state machine and its response
formatter (`Chat` page), and the two response interceptors (single-shot
retry on timeout for search; bounded exponential backoff for chat).

React `useState` semantics are modelled explicitly: every event handler
reads the state snapshot of the render that created it, and the `setX`
calls it makes only take effect afterwards.  A handler is therefore a
pure function from the snapshot (plus the outcome of any network call it
awaits) to the next state together with the request it issued.
Machine numbers are modelled as `Int`/`Nat`; JS dates and their
locale/ISO serialisation are kept opaque.
-/

namespace GenderChatbot

/-! ## Pagination display helper (`getPageNumbers`, Search page)

    const delta = 2;
    for (let i = 1; i <= total; i++)
      if (i === 1 || i === total || (i >= current - delta && i <= current + delta))
        range.push(i);
    for (...) { if (l) { if (range[i] - l === 2) push(l + 1);
                         else if (range[i] - l !== 1) push(-1); }
                push(range[i]); l = range[i]; }
-/

/-- The filter of the first loop: page `i` is kept when it is 1, the last
page, or within ±2 of the current page. -/
def pageIncluded (current total i : Int) : Bool :=
  i == 1 || i == total || (decide (current - 2 ≤ i) && decide (i ≤ current + 2))

/-- The `range` array built by the first loop: the pages `1..total` that
pass `pageIncluded`. -/
def pageRange (current total : Int) : List Int :=
  ((List.range total.toNat).map (fun (k : Nat) => ((k : Int) + 1))).filter
    (pageIncluded current total)

/-- The second loop.  `l` is `undefined` before the first iteration and
afterwards holds the previously pushed page number, which is always ≥ 1,
so JS truthiness of `l` coincides with definedness (`Option`). -/
def addDots : Option Int → List Int → List Int
  | _, [] => []
  | none, r :: rs => r :: addDots (some r) rs
  | some l, r :: rs =>
    if r - l == 2 then (l + 1) :: r :: addDots (some r) rs
    else if r - l == 1 then r :: addDots (some r) rs
    else (-1) :: r :: addDots (some r) rs

/-- The function `getPageNumbers(current, total)` from the Search page: the visible
page-number sequence, with `-1` marking an ellipsis. -/
def getPageNumbers (current total : Int) : List Int :=
  addDots none (pageRange current total)

/-- The entries of a page sequence that are real page numbers (drop the
`-1` ellipsis markers). -/
def noDots (xs : List Int) : List Int :=
  xs.filter (fun x => x != -1)

example : getPageNumbers 5 10 = [1, 2, 3, 4, 5, 6, 7, -1, 10] := by decide

/-! ### Lemmas about the pagination helper -/

lemma mem_pageRange {c t i : Int} :
    i ∈ pageRange c t ↔ 1 ≤ i ∧ i ≤ t ∧ pageIncluded c t i = true := by
  rw [pageRange, List.mem_filter, List.mem_map]
  constructor
  · rintro ⟨⟨k, hk, rfl⟩, hp⟩
    rw [List.mem_range] at hk
    exact ⟨by omega, by omega, hp⟩
  · rintro ⟨h1, h2, hp⟩
    refine ⟨⟨(i - 1).toNat, ?_, by omega⟩, hp⟩
    rw [List.mem_range]
    omega

lemma pageRange_chain (c t : Int) : List.Chain' (· < ·) (pageRange c t) := by
  apply List.Pairwise.chain'
  apply List.Pairwise.filter
  have h := List.pairwise_lt_range t.toNat
  exact h.map _ (fun a b hab => by omega)

lemma pageRange_pos {c t x : Int} (hx : x ∈ pageRange c t) : 1 ≤ x :=
  (mem_pageRange.mp hx).1

lemma pageRange_le {c t x : Int} (hx : x ∈ pageRange c t) : x ≤ t :=
  (mem_pageRange.mp hx).2.1

/-- Every element of the input list survives into `addDots`' output. -/
lemma mem_addDots {x : Int} : ∀ (l : Option Int) (xs : List Int), x ∈ xs → x ∈ addDots l xs
  | _, [], h => by cases h
  | none, r :: rs, h => by
    rcases List.mem_cons.mp h with rfl | h
    · exact List.mem_cons_self _ _
    · exact List.mem_cons_of_mem _ (mem_addDots (some r) rs h)
  | some l, r :: rs, h => by
    rcases List.mem_cons.mp h with rfl | h
    · simp only [addDots]
      split
      · exact List.mem_cons_of_mem _ (List.mem_cons_self _ _)
      · split
        · exact List.mem_cons_self _ _
        · exact List.mem_cons_of_mem _ (List.mem_cons_self _ _)
    · simp only [addDots]
      split
      · exact List.mem_cons_of_mem _ (List.mem_cons_of_mem _ (mem_addDots (some r) rs h))
      · split
        · exact List.mem_cons_of_mem _ (mem_addDots (some r) rs h)
        · exact List.mem_cons_of_mem _ (List.mem_cons_of_mem _ (mem_addDots (some r) rs h))

/-- Dropping the ellipsis markers from `addDots`' output leaves a strictly
ascending chain above `l`. -/
lemma addDots_chain : ∀ (xs : List Int) (l : Int), 1 ≤ l →
    List.Chain (· < ·) l xs →
    List.Chain (· < ·) l (noDots (addDots (some l) xs))
  | [], l, _, _ => by simp [addDots, noDots]
  | r :: rs, l, hl, hch => by
    rw [List.chain_cons] at hch
    obtain ⟨hlr, hch⟩ := hch
    have hr1 : 1 ≤ r := by omega
    have ih := addDots_chain rs r hr1 hch
    simp only [addDots]
    split
    · rename_i h2
      have h2' : r - l = 2 := by simpa using h2
      have e1 : ((l + 1 : Int) != -1) = true := by simp; omega
      have e2 : ((r : Int) != -1) = true := by simp; omega
      have hnd : noDots ((l + 1) :: r :: addDots (some r) rs)
          = (l + 1) :: r :: noDots (addDots (some r) rs) := by
        simp [noDots, List.filter_cons, e1, e2]
      rw [hnd, List.chain_cons, List.chain_cons]
      exact ⟨by omega, by omega, ih⟩
    · split
      · have e2 : ((r : Int) != -1) = true := by simp; omega
        have hnd : noDots (r :: addDots (some r) rs) = r :: noDots (addDots (some r) rs) := by
          simp [noDots, List.filter_cons, e2]
        rw [hnd, List.chain_cons]
        exact ⟨hlr, ih⟩
      · have e2 : ((r : Int) != -1) = true := by simp; omega
        have hnd : noDots ((-1) :: r :: addDots (some r) rs)
            = r :: noDots (addDots (some r) rs) := by
          simp [noDots, List.filter_cons, e2]
        rw [hnd, List.chain_cons]
        exact ⟨hlr, ih⟩

/-- The loop `addDots` never emits two adjacent ellipsis markers. -/
lemma addDots_no_adjacent_dots : ∀ (xs : List Int) (l : Int), 1 ≤ l →
    List.Chain (· < ·) l xs →
    List.Chain' (fun a b => a = -1 → b ≠ -1) (addDots (some l) xs)
  | [], _, _, _ => by simp [addDots]
  | r :: rs, l, hl, hch => by
    rw [List.chain_cons] at hch
    obtain ⟨hlr, hch⟩ := hch
    have hr1 : 1 ≤ r := by omega
    have hrne : r ≠ -1 := by omega
    have ih := addDots_no_adjacent_dots rs r hr1 hch
    have hcons : List.Chain' (fun a b => a = -1 → b ≠ -1) (r :: addDots (some r) rs) := by
      cases h : addDots (some r) rs with
      | nil => simp
      | cons y ys =>
        rw [List.chain'_cons]
        exact ⟨fun hr => absurd hr hrne, h ▸ ih⟩
    simp only [addDots]
    split
    · rw [List.chain'_cons]
      exact ⟨fun h => by omega, hcons⟩
    · split
      · exact hcons
      · rw [List.chain'_cons]
        exact ⟨fun _ => hrne, hcons⟩

/-- Every entry of `addDots`' output is an input entry, an ellipsis marker,
or the single page filling a gap of width two. -/
lemma addDots_entries : ∀ (xs : List Int) (l : Int) (t : Int), 1 ≤ l → l ≤ t →
    List.Chain (· < ·) l xs → (∀ x ∈ xs, x ≤ t) →
    ∀ y ∈ addDots (some l) xs, y = -1 ∨ (1 ≤ y ∧ y ≤ t)
  | [], _, _, _, _, _, _ => by simp [addDots]
  | r :: rs, l, t, hl, hlt, hch, hle => by
    rw [List.chain_cons] at hch
    obtain ⟨hlr, hch⟩ := hch
    have hr1 : 1 ≤ r := by omega
    have hrt : r ≤ t := hle r (List.mem_cons_self _ _)
    have ih := addDots_entries rs r t hr1 hrt hch
      (fun x hx => hle x (List.mem_cons_of_mem _ hx))
    intro y
    simp only [addDots]
    split
    · rename_i h2
      have h2' : r - l = 2 := by simpa using h2
      intro hy
      rcases List.mem_cons.mp hy with rfl | hy
      · right; omega
      · rcases List.mem_cons.mp hy with rfl | hy
        · right; omega
        · exact ih y hy
    · split
      · intro hy
        rcases List.mem_cons.mp hy with rfl | hy
        · right; omega
        · exact ih y hy
      · intro hy
        rcases List.mem_cons.mp hy with rfl | hy
        · left; rfl
        · rcases List.mem_cons.mp hy with rfl | hy
          · right; omega
          · exact ih y hy

/-! ## Search page state machine

The `Search` component's `useState` cells that the modelled handlers read
or write.  JS `Date` values and their (timezone-dependent) `toISOString`
serialisation are kept opaque as year/month/day triples, exactly as
constructed in the source (`new Date(2024, 0, 1)` — month is 0-based).
Unrelated UI state (the fetched country list, dashboard-edit fields, the
category search box and the orthogonal loading flags of the two mount-time
fetches) is not touched by these handlers and is omitted. -/

/-- A JS `Date` as constructed by `new Date(year, month, day)`. -/
structure JsDate where
  year : Int
  month : Int
  day : Int
deriving DecidableEq, Repr

/-- An article as rendered by `ArticleCard` (the search page itself treats
the array elements opaquely as `any`). -/
structure Article where
  title : String
  link : String
  media_source : String
  published_date : String
  msbm_country_full_name : String
  msbm_category : String
  msbm_llm_summary : String
deriving DecidableEq, Repr

/-- A saved dashboard as returned by the backend (`_id` is written `id`). -/
structure Dashboard where
  id : String
  dashboard_name : String
  selected_keywords : List String
  selected_countries : List String
  start_date : Option String
  end_date : Option String
  created_at : String
deriving DecidableEq, Repr

/-- The `useState` cells of the `Search` component used by the modelled
handlers, with their initial values as defaults. -/
structure SearchState where
  selectedCategories : List String := []
  selectedCountries : List String := []
  startDate : JsDate := ⟨2024, 0, 1⟩
  endDate : JsDate := ⟨2024, 11, 31⟩
  searchResults : List Article := []
  currentPage : Int := 1
  totalPages : Int := 1
  totalArticles : Int := 0
  error : Option String := none
  isSearching : Bool := false
  savedDashboards : List Dashboard := []
deriving DecidableEq, Repr

/-- The query parameters of `GET /keyword-search/search` built by
`handleSearch` (dates stand for their `toISOString()` serialisation). -/
structure SearchRequest where
  page : Int
  page_size : Int
  category : List String
  country : List String
  start_date : JsDate
  end_date : JsDate
deriving DecidableEq, Repr

/-- The fields of a successful search response that `handleSearch` reads. -/
structure SearchResponse where
  articles : List Article
  total_pages : Int
  total : Int
deriving DecidableEq, Repr

/-- Outcome of the awaited search request: parsed data, or the caught
error's final display message. -/
inductive SearchOutcome where
  | ok (d : SearchResponse)
  | fail (msg : String)
deriving DecidableEq, Repr

/-- The parameters object `handleSearch` constructs from the state
snapshot of the render that created it — in particular `page` is the
snapshot's `currentPage`. -/
def searchRequestOf (s : SearchState) : SearchRequest :=
  { page := s.currentPage
    page_size := 10
    category := s.selectedCategories
    country := s.selectedCountries
    start_date := s.startDate
    end_date := s.endDate }

/-- The handler `handleSearch`: issues the request built from the snapshot; on success
replaces results, total-page count and total count (leaving `currentPage`
alone); on failure only sets the error message.  Returns the state after
the handler's `setX` calls have been applied, paired with the request it
sent. -/
def handleSearch (s : SearchState) (o : SearchOutcome) : SearchState × SearchRequest :=
  let req := searchRequestOf s
  match o with
  | .ok d =>
    ({ s with error := none
              searchResults := d.articles
              totalPages := d.total_pages
              totalArticles := d.total
              isSearching := false }, req)
  | .fail m =>
    ({ s with error := some m, isSearching := false }, req)

/-- The handler `handlePageChange(newPage)`: guarded no-op outside `[1, totalPages]`;
inside the range it enqueues `setCurrentPage(newPage)` and calls the
`handleSearch` closure of the *current* render, which still reads the old
`currentPage` for the request's `page` parameter. -/
def handlePageChange (s : SearchState) (newPage : Int) (o : SearchOutcome) :
    SearchState × Option SearchRequest :=
  if 1 ≤ newPage ∧ newPage ≤ s.totalPages then
    let r := handleSearch s o
    ({ r.1 with currentPage := newPage }, some r.2)
  else (s, none)

/-- The handler `handleClearSearch`: resets every search parameter and result cell. -/
def handleClearSearch (s : SearchState) : SearchState :=
  { s with selectedCategories := []
           selectedCountries := []
           startDate := ⟨2024, 0, 1⟩
           endDate := ⟨2024, 11, 31⟩
           searchResults := []
           totalPages := 1
           totalArticles := 0
           currentPage := 1
           error := none }

/-- The body of `POST /keyword-search/dashboards` built by `handleSaveQuery`. -/
structure DashboardReq where
  selected_keywords : List String
  selected_countries : List String
  start_date : JsDate
  end_date : JsDate
deriving DecidableEq, Repr

/-- Outcome of the awaited dashboard-save request. -/
inductive SaveOutcome where
  | ok (d : Dashboard)
  | fail (msg : String)
deriving DecidableEq, Repr

/-- The `alert` text shown when a selection is missing. -/
def saveValidationMsg : String :=
  "Please select at least one category and one country before saving"

/-- The handler `handleSaveQuery`: validates that both selections are non-empty before
any request is sent; otherwise posts the current filter and appends the
server-returned dashboard.  Returns the next state, the request sent (if
any) and the `alert` message shown (if any). -/
def handleSaveQuery (s : SearchState) (o : SaveOutcome) :
    SearchState × Option DashboardReq × Option String :=
  if s.selectedCategories.isEmpty || s.selectedCountries.isEmpty then
    (s, none, some saveValidationMsg)
  else
    let req : DashboardReq :=
      { selected_keywords := s.selectedCategories
        selected_countries := s.selectedCountries
        start_date := s.startDate
        end_date := s.endDate }
    match o with
    | .ok d => ({ s with savedDashboards := s.savedDashboards ++ [d] }, some req, none)
    | .fail _ => (s, some req, some "Failed to save dashboard")

/-- The `PageState` invariant claimed by the spec. -/
def pageInvariant (s : SearchState) : Prop :=
  1 ≤ s.currentPage ∧ s.currentPage ≤ max s.totalPages 1

instance (s : SearchState) : Decidable (pageInvariant s) := by
  unfold pageInvariant; infer_instance

/-! ### C1: the pagination display sequence -/

/-- C1, counterexample: for `totalPages = 10`, `currentPage = 5` the
generator does NOT return `[1, -1, 3, 4, 5, 6, 7, -1, 10]` as claimed;
it returns `[1, 2, 3, 4, 5, 6, 7, -1, 10]`, because a gap of exactly one
missing page (here page 2, between 1 and 3) is filled with that page
number instead of an ellipsis marker. -/
theorem C1_pagination_counterexample :
    getPageNumbers 5 10 ≠ [1, -1, 3, 4, 5, 6, 7, -1, 10] ∧
    getPageNumbers 5 10 = [1, 2, 3, 4, 5, 6, 7, -1, 10] := by
  constructor
  · decide
  · decide

/-- C1, amended: for every total-page count `t ≥ 1` and current page `c`
with `1 ≤ c ≤ t`, the pagination sequence includes page 1, page `t`, and
every page within ±2 of `c` that lies in `[1, t]`; every entry is either
an ellipsis marker (−1) or a page in `[1, t]`; the sequence is strictly
ascending once ellipsis markers are dropped; no two ellipsis markers are
adjacent (at most one per gap); a gap of exactly one missing page is
filled with that page number rather than an ellipsis, so
`totalPages = 10`, `currentPage = 5` yields `[1, 2, 3, 4, 5, 6, 7, -1, 10]`. -/
theorem C1_pagination_amended (c t : Int) (hc : 1 ≤ c) (hct : c ≤ t) :
    (1 : Int) ∈ getPageNumbers c t ∧
    t ∈ getPageNumbers c t ∧
    (∀ i : Int, 1 ≤ i → i ≤ t → c - 2 ≤ i → i ≤ c + 2 → i ∈ getPageNumbers c t) ∧
    (∀ y ∈ getPageNumbers c t, y = -1 ∨ (1 ≤ y ∧ y ≤ t)) ∧
    List.Chain' (· < ·) (noDots (getPageNumbers c t)) ∧
    List.Chain' (fun a b => a = -1 → b ≠ -1) (getPageNumbers c t) ∧
    getPageNumbers 5 10 = [1, 2, 3, 4, 5, 6, 7, -1, 10] := by
  have h1 : (1 : Int) ∈ pageRange c t := by
    rw [mem_pageRange]
    refine ⟨le_refl 1, by omega, ?_⟩
    simp [pageIncluded]
  have ht : t ∈ pageRange c t := by
    rw [mem_pageRange]
    refine ⟨by omega, le_refl t, ?_⟩
    simp [pageIncluded]
  refine ⟨mem_addDots none _ h1, mem_addDots none _ ht, ?_, ?_, ?_, ?_, by decide⟩
  · intro i hi1 hit hic1 hic2
    apply mem_addDots none
    rw [mem_pageRange]
    refine ⟨hi1, hit, ?_⟩
    simp only [pageIncluded, Bool.or_eq_true, Bool.and_eq_true, beq_iff_eq, decide_eq_true_eq]
    omega
  · intro y hy
    rw [getPageNumbers] at hy
    cases hpr : pageRange c t with
    | nil => rw [hpr] at hy; cases hy
    | cons x xs =>
      rw [hpr] at hy
      have hx : x ∈ pageRange c t := hpr ▸ List.mem_cons_self x xs
      have hx1 : 1 ≤ x := pageRange_pos hx
      have hxt : x ≤ t := pageRange_le hx
      have hch : List.Chain (· < ·) x xs := by
        have := pageRange_chain c t
        rw [hpr] at this
        exact this
      simp only [addDots] at hy
      rcases List.mem_cons.mp hy with rfl | hy
      · right; exact ⟨hx1, hxt⟩
      · exact addDots_entries xs x t hx1 hxt hch
          (fun e he => pageRange_le (hpr ▸ List.mem_cons_of_mem x he)) y hy
  · rw [getPageNumbers]
    cases hpr : pageRange c t with
    | nil => simp [addDots, noDots]
    | cons x xs =>
      have hx : x ∈ pageRange c t := hpr ▸ List.mem_cons_self x xs
      have hx1 : 1 ≤ x := pageRange_pos hx
      have hch : List.Chain (· < ·) x xs := by
        have := pageRange_chain c t
        rw [hpr] at this
        exact this
      have e2 : ((x : Int) != -1) = true := by simp; omega
      simp only [addDots]
      have hnd : noDots (x :: addDots (some x) xs) = x :: noDots (addDots (some x) xs) := by
        simp [noDots, List.filter_cons, e2]
      rw [hnd]
      show List.Chain (· < ·) x (noDots (addDots (some x) xs))
      exact addDots_chain xs x hx1 hch
  · rw [getPageNumbers]
    cases hpr : pageRange c t with
    | nil => simp [addDots]
    | cons x xs =>
      have hx : x ∈ pageRange c t := hpr ▸ List.mem_cons_self x xs
      have hx1 : 1 ≤ x := pageRange_pos hx
      have hxne : x ≠ -1 := by omega
      have hch : List.Chain (· < ·) x xs := by
        have := pageRange_chain c t
        rw [hpr] at this
        exact this
      have ih := addDots_no_adjacent_dots xs x hx1 hch
      simp only [addDots]
      cases hT : addDots (some x) xs with
      | nil => simp
      | cons y ys =>
        rw [List.chain'_cons]
        exact ⟨fun h => absurd h hxne, hT ▸ ih⟩

/-- Witness for `C1_pagination_amended` at `c = 5`, `t = 10`. -/
theorem C1_pagination_amended_witness :
    (1 : Int) ∈ getPageNumbers 5 10 ∧ (10 : Int) ∈ getPageNumbers 5 10 ∧
    (3 : Int) ∈ getPageNumbers 5 10 ∧
    List.Chain' (· < ·) (noDots (getPageNumbers 5 10)) := by
  obtain ⟨h1, h2, h3, _, h5, _, _⟩ := C1_pagination_amended 5 10 (by decide) (by decide)
  exact ⟨h1, h2, h3 3 (by decide) (by decide) (by decide) (by decide), h5⟩

/-! ### C2: changePage -/

/-- A state on page 1 of 10 results, as after a successful first search. -/
def c2State : SearchState := { currentPage := 1, totalPages := 10 }

/-- C2, code bug: the in-range guard and the no-op outside `[1, totalPages]`
behave as claimed, but the re-invoked search does not use the new page:
`handleSearch` is the closure of the current render and still reads the
old `currentPage`, so `changePage 2` from page 1 sets `currentPage` to 2
while the request it sends carries `page = 1`, not `page = 2`. -/
theorem C2_changePage_stale_page :
    (handlePageChange c2State 2 (.fail "err")).1.currentPage = 2 ∧
    (handlePageChange c2State 2 (.fail "err")).2 = some (searchRequestOf c2State) ∧
    (searchRequestOf c2State).page = 1 ∧
    handlePageChange c2State 0 (.fail "err") = (c2State, none) ∧
    handlePageChange c2State 11 (.fail "err") = (c2State, none) := by
  refine ⟨rfl, ?_, rfl, ?_, ?_⟩ <;> decide

/-! ### C5: the PageState invariant -/

/-- A state on page 5 of 10, as after paginating through a large result
set; the invariant holds here. -/
def c5State : SearchState := { currentPage := 5, totalPages := 10 }

/-- C5, counterexample: a successful search response reporting fewer total
pages (2) than the current page (5) breaks the invariant
`1 ≤ currentPage ≤ max(totalPages, 1)`, because `handleSearch` recomputes
`totalPages` from the response but never clamps `currentPage`. -/
theorem C5_invariant_counterexample :
    pageInvariant c5State ∧
    ¬ pageInvariant (handleSearch c5State (.ok ⟨[], 2, 11⟩)).1 := by
  decide

/-- C5, amended: the invariant `1 ≤ currentPage ≤ max(totalPages, 1)` is
preserved by `clear`, by failed searches, and by pagination with a failed
re-fetch; after a successful search response it is preserved only under
the additional assumption that the response's total-page count bounds the
(new) current page — without that assumption the counterexample applies. -/
theorem C5_invariant_amended (s : SearchState) (n : Int) (m : String)
    (r : SearchResponse) (h : pageInvariant s) :
    pageInvariant (handleClearSearch s) ∧
    pageInvariant (handleSearch s (.fail m)).1 ∧
    pageInvariant (handlePageChange s n (.fail m)).1 ∧
    (s.currentPage ≤ max r.total_pages 1 → pageInvariant (handleSearch s (.ok r)).1) ∧
    (n ≤ max r.total_pages 1 → pageInvariant (handlePageChange s n (.ok r)).1) := by
  obtain ⟨h1, h2⟩ := h
  refine ⟨?_, ?_, ?_, ?_, ?_⟩
  · refine ⟨le_refl 1, ?_⟩
    show (1 : Int) ≤ max 1 1
    norm_num
  · exact ⟨h1, h2⟩
  · rw [handlePageChange]
    split
    · rename_i hn
      refine ⟨?_, ?_⟩
      · show (1 : Int) ≤ n
        omega
      · show n ≤ max s.totalPages 1
        omega
    · exact ⟨h1, h2⟩
  · intro hb
    exact ⟨h1, hb⟩
  · intro hb
    rw [handlePageChange]
    split
    · rename_i hn
      refine ⟨?_, ?_⟩
      · show (1 : Int) ≤ n
        omega
      · show n ≤ max r.total_pages 1
        exact hb
    · exact ⟨h1, h2⟩

/-- Witness for `C5_invariant_amended` at the initial state with a
successful response of 3 total pages. -/
theorem C5_invariant_amended_witness :
    pageInvariant (handleClearSearch {}) ∧
    pageInvariant (handleSearch {} (.fail "e")).1 ∧
    pageInvariant (handleSearch {} (.ok ⟨[], 3, 30⟩)).1 := by
  obtain ⟨w1, w2, _, w4, _⟩ := C5_invariant_amended {} 1 "e" ⟨[], 3, 30⟩ (by decide)
  exact ⟨w1, w2, w4 (by decide)⟩

/-! ### C6: saving the current filter as a dashboard -/

/-- C6: when either selection is empty, `handleSaveQuery` sends no request
and shows the validation alert; when both are non-empty and the post
succeeds, it sends the current filter as the dashboard body and appends
the server-returned dashboard to the local list. -/
theorem C6_save_dashboard (s : SearchState) (o : SaveOutcome) :
    (s.selectedCategories = [] ∨ s.selectedCountries = [] →
      handleSaveQuery s o = (s, none, some saveValidationMsg)) ∧
    (s.selectedCategories ≠ [] → s.selectedCountries ≠ [] → ∀ d, o = .ok d →
      handleSaveQuery s o =
        ({ s with savedDashboards := s.savedDashboards ++ [d] },
         some { selected_keywords := s.selectedCategories
                selected_countries := s.selectedCountries
                start_date := s.startDate
                end_date := s.endDate },
         none)) := by
  constructor
  · intro he
    have hb : (s.selectedCategories.isEmpty || s.selectedCountries.isEmpty) = true := by
      rcases he with he | he <;> simp [he]
    simp [handleSaveQuery, hb]
  · intro hc hk d ho
    subst ho
    have hb : (s.selectedCategories.isEmpty || s.selectedCountries.isEmpty) = false := by
      simp [hc, hk]
    simp [handleSaveQuery, hb]

/-- The state after selecting one research topic and one country. -/
def pickedSearchState : SearchState :=
  { selectedCategories := ["Gender Equality"], selectedCountries := ["Jamaica"] }

/-- A dashboard as the backend would return it for that filter. -/
def returnedDashboard : Dashboard :=
  ⟨"1", "q", ["Gender Equality"], ["Jamaica"], none, none, "t"⟩

/-- Witness for `C6_save_dashboard`: the empty initial state triggers the
validation alert; a state with one category and one country selected posts
and appends. -/
theorem C6_save_dashboard_witness :
    handleSaveQuery {} (.ok returnedDashboard) = ({}, none, some saveValidationMsg) ∧
    handleSaveQuery pickedSearchState (.ok returnedDashboard)
      = ({ pickedSearchState with savedDashboards := [returnedDashboard] },
         some { selected_keywords := ["Gender Equality"], selected_countries := ["Jamaica"],
                start_date := ⟨2024, 0, 1⟩, end_date := ⟨2024, 11, 31⟩ },
         none) := by
  constructor
  · exact (C6_save_dashboard {} _).1 (Or.inl rfl)
  · exact (C6_save_dashboard pickedSearchState _).2 (by decide) (by decide) _ rfl

/-! ### C7: failed searches keep prior results -/

/-- C7: a failing search sets the error message and leaves the previous
result list, total count, total-page count, current page and saved
dashboards untouched. -/
theorem C7_search_failure_preserves (s : SearchState) (m : String) :
    (handleSearch s (.fail m)).1.error = some m ∧
    (handleSearch s (.fail m)).1.searchResults = s.searchResults ∧
    (handleSearch s (.fail m)).1.totalArticles = s.totalArticles ∧
    (handleSearch s (.fail m)).1.totalPages = s.totalPages ∧
    (handleSearch s (.fail m)).1.currentPage = s.currentPage ∧
    (handleSearch s (.fail m)).1.savedDashboards = s.savedDashboards :=
  ⟨rfl, rfl, rfl, rfl, rfl, rfl⟩

/-! ## HTTP error classification and the two response interceptors -/

/-- A failed request as seen by the interceptors: a transport timeout
(`error.code === 'ECONNABORTED'`), a network failure with no response
(`ERR_NETWORK` / `error.request` only), an HTTP error response carrying a
status and optional `detail` body field, or anything else.  Each variant
carries the transport layer's `error.message`. -/
inductive ReqError where
  | timeout
  | network (msg : String)
  | httpErr (status : Int) (detail : Option String) (msg : String)
  | other (msg : String)
deriving DecidableEq, Repr

/-- Outcome of one transmission of a request, with response payload `α`. -/
inductive Attempt (α : Type) where
  | success (a : α)
  | failure (e : ReqError)
deriving DecidableEq, Repr

/-- The search page's response interceptor retries exactly when the error
is a timeout and the per-request `_retry` flag is not yet set. -/
def searchInterceptorRetries (e : ReqError) (retryFlag : Bool) : Bool :=
  match e with
  | .timeout => !retryFlag
  | _ => false

/-- One request on the search client, driven by the per-attempt outcomes
in `attempts`.  Returns the surfaced outcome, the number of transmissions
used, and the delay in milliseconds inserted before each retry — the
search interceptor re-invokes the client immediately
(`return await api(originalRequest)`), so each retry contributes a delay
of 0 ms.  `none` only when `attempts` is exhausted. -/
def runSearchReq (flag : Bool) : List (Attempt α) → Option (Attempt α × Nat × List Nat)
  | [] => none
  | .success a :: _ => some (.success a, 1, [])
  | .failure e :: rest =>
    if searchInterceptorRetries e flag then
      match runSearchReq true rest with
      | some (res, n, ds) => some (res, n + 1, 0 :: ds)
      | none => none
    else some (.failure e, 1, [])

/-- The chat client's per-request configuration object: the maximum retry
count `retry` (absent on requests that never opted in) and the mutable
counter `_retryCount` (absent until the first retry).  JS truthiness of
`config.retry` is false both for `undefined` and for `0`. -/
structure ChatConfig where
  retry : Option Nat := none
  retryCount : Option Nat := none
  timeout : Option Nat := none
deriving DecidableEq, Repr

/-- The exponential backoff of the chat interceptor:
`Math.min(1000 * (Math.pow(2, count) - 1), 10000)`. -/
def chatBackoff (count : Nat) : Nat :=
  min (1000 * (2 ^ count - 1)) 10000

/-- What the chat interceptor's error handler does with a failed request. -/
inductive ChatDecision where
  | reject
  | retryAfter (delayMs : Nat) (cfg : ChatConfig)
deriving DecidableEq, Repr

/-- The chat response interceptor's error handler: reject when there is no
(truthy) `retry` configuration or the counter has reached it
(`undefined >= retry` is false in JS, so an absent counter never
rejects); otherwise increment the counter and wait the backoff computed
from the new count before resubmitting the identical request. -/
def chatInterceptorOnError (cfg : ChatConfig) : ChatDecision :=
  match cfg.retry with
  | none => .reject
  | some r =>
    if r = 0 then .reject
    else if (match cfg.retryCount with | some c => decide (r ≤ c) | none => false) then .reject
    else
      let newCount := cfg.retryCount.getD 0 + 1
      .retryAfter (chatBackoff newCount) { cfg with retryCount := some newCount }

/-- One request on the chat client, driven by the per-attempt outcomes.
Returns the surfaced outcome, the number of transmissions used, and the
backoff delays inserted before the successive retries. -/
def runChatReq (cfg : ChatConfig) : List (Attempt α) → Option (Attempt α × Nat × List Nat)
  | [] => none
  | .success a :: _ => some (.success a, 1, [])
  | .failure e :: rest =>
    match chatInterceptorOnError cfg with
    | .reject => some (.failure e, 1, [])
    | .retryAfter d cfg' =>
      match runChatReq cfg' rest with
      | some (res, n, ds) => some (res, n + 1, d :: ds)
      | none => none

/-! ### C3: single-shot retry on timeout (search path) -/

/-- C3: on the search client, a first attempt that fails with a transport
timeout is followed by exactly one automatic retry with no delay (0 ms)
before it, and the outcome of that second attempt — success, a second
timeout, or any other failure — is surfaced as is, with no third
transmission. -/
theorem C3_search_timeout_retry (second : Attempt α) (rest : List (Attempt α)) :
    runSearchReq false (.failure .timeout :: second :: rest) = some (second, 2, [0]) := by
  cases second with
  | success a => rfl
  | failure e => cases e <;> rfl

/-! ### C4: bounded exponential backoff (chat path) -/

/-- C4: the chat backoff before the k-th retry is
`min(1000 * (2^k - 1), 10000)` ms — 1000, 3000, 7000, 10000, 10000 for
retries 1..5 — and on a request configured with `retry = 5`, six
consecutive failures produce exactly those five delays, after which the
sixth failure propagates unmodified with no further retry. -/
theorem C4_chat_backoff_schedule (e1 e2 e3 e4 e5 e6 : ReqError) :
    (∀ k, chatBackoff k = min (1000 * (2 ^ k - 1)) 10000) ∧
    chatBackoff 1 = 1000 ∧ chatBackoff 2 = 3000 ∧ chatBackoff 3 = 7000 ∧
    chatBackoff 4 = 10000 ∧ chatBackoff 5 = 10000 ∧
    runChatReq (α := Unit) { retry := some 5 }
      [.failure e1, .failure e2, .failure e3, .failure e4, .failure e5, .failure e6]
      = some (.failure e6, 6, [1000, 3000, 7000, 10000, 10000]) := by
  refine ⟨fun k => rfl, rfl, rfl, rfl, rfl, rfl, ?_⟩
  rfl

/-! ## Chat session state machine -/

/-- One entry of the structured `sources` array of a chat response. -/
structure ChatSource where
  title : String
  link : String
  source : String
  date : String
deriving DecidableEq, Repr

/-- The body of a successful `POST /chatbot/chat` response. -/
structure ChatResponse where
  response : String
  sources : List ChatSource
  conversation_id : String
deriving DecidableEq, Repr

/-! ### `formatResponse`

    return answer.replace(/\n*Sources:[\s\S]*$/, '') + sourcesList;

`String.replace` with a non-global regex deletes the leftmost match.  A
match of `\n*Sources:[\s\S]*$` consists of a run of newlines, the literal
`Sources:`, and everything to the end of the string; since `Sources:`
contains no newline and no occurrence of it can begin inside `\n*`, the
leftmost match starts at the first occurrence of `Sources:` minus the
maximal run of newlines immediately before it.  The locale-dependent
`new Date(d).toLocaleDateString('en-US', ...)` is abstracted as an
arbitrary date-formatting function `fmtDate`. -/

/-- The literal `Sources:` searched for by the regex. -/
def sourcesMarker : List Char := "Sources:".data

/-- Here `beginsWith pat text` means: `pat` is a prefix of `text`. -/
def beginsWith : List Char → List Char → Bool
  | [], _ => true
  | _ :: _, [] => false
  | p :: ps, c :: cs => p == c && beginsWith ps cs

/-- Index of the first occurrence of `Sources:`. -/
def findMarker : List Char → Option Nat
  | [] => none
  | c :: cs =>
    if beginsWith sourcesMarker (c :: cs) then some 0
    else (findMarker cs).map (· + 1)

/-- Length of the maximal run of newlines at the end of `cs`. -/
def trailingNewlines (cs : List Char) : Nat :=
  (cs.reverse.takeWhile (· == '\n')).length

/-- The replacement `answer.replace(/\n*Sources:[\s\S]*$/, '')`: keep the prefix that ends
where the leftmost match starts. -/
def stripSources (cs : List Char) : List Char :=
  match findMarker cs with
  | none => cs
  | some p =>
    let body := cs.take p
    body.take (body.length - trailingNewlines body)

/-- One markdown entry of the regenerated source list:
`[title (source, date)](link)`. -/
def formatSource (fmtDate : String → String) (src : ChatSource) : String :=
  "[" ++ src.title ++ " (" ++ src.source ++ ", " ++ fmtDate src.date ++ ")](" ++ src.link ++ ")"

/-- The regenerated `Sources:` block: empty when the structured array is
empty, else header plus the entries joined by blank lines. -/
def sourcesBlock (fmtDate : String → String) (sources : List ChatSource) : String :=
  if sources.isEmpty then ""
  else "\n\nSources:\n\n" ++ String.intercalate "\n\n" (sources.map (formatSource fmtDate))

/-- The formatter `formatResponse`: strip any inline `Sources:` block from the answer
text and append the freshly generated markdown list. -/
def formatResponse (fmtDate : String → String) (r : ChatResponse) : String :=
  String.mk (stripSources r.response.data) ++ sourcesBlock fmtDate r.sources

/-! ### `handleSend` -/

/-- Message author tag of the transcript. -/
inductive MsgType where
  | user
  | bot
deriving DecidableEq, Repr

/-- One transcript entry. -/
structure ChatMessage where
  type : MsgType
  content : String
deriving DecidableEq, Repr

/-- The greeting the transcript starts with. -/
def chatGreeting : String :=
  "Hello! I can help you analyze gender-related news and trends in the Caribbean. What would you like to know?"

/-- The `useState` cells of the `Chat` component, with their initial
values as defaults. -/
structure ChatState where
  messages : List ChatMessage := [⟨.bot, chatGreeting⟩]
  input : String := ""
  conversationId : Option String := none
  isLoading : Bool := false
deriving DecidableEq, Repr

/-- The body and per-request configuration of the `POST /chatbot/chat`
call issued by `handleSend`. -/
structure ChatRequest where
  messages : List (String × String)
  conversation_id : Option String
  cfg : ChatConfig
deriving DecidableEq, Repr

/-- Outcome of the awaited chat request. -/
inductive ChatOutcome where
  | ok (r : ChatResponse)
  | err (e : ReqError)
deriving DecidableEq, Repr

/-- The role tag sent for each transcript entry. -/
def roleOf : MsgType → String
  | .user => "user"
  | .bot => "assistant"

/-- The third argument of `api.post('/chatbot/chat', ..., { timeout: 60000 })`:
a timeout override and nothing else — in particular no `retry` field. -/
def chatSendConfig : ChatConfig := { timeout := some 60000 }

/-- JS `!input.trim()`: the string trims to empty exactly when every
character is whitespace. -/
def jsTrimEmpty (s : String) : Bool :=
  s.data.all Char.isWhitespace

/-- The request `handleSend` issues: the role-tagged transcript of the
snapshot plus the current input, with the current conversation identifier
(`null` while none is assigned). -/
def chatRequestOf (s : ChatState) : ChatRequest :=
  { messages := s.messages.map (fun m => (roleOf m.type, m.content)) ++ [("user", s.input)]
    conversation_id := s.conversationId
    cfg := chatSendConfig }

/-- The display message of the catch block of `handleSend`. -/
def chatErrorMessage : ReqError → String
  | .timeout => "The request took too long to complete. Please try again."
  | .httpErr _ detail msg => "Error: " ++ detail.getD msg
  | .network _ => "Error: Could not connect to the server. Please check your connection."
  | .other _ => "Sorry, something went wrong. Please try again."

/-- The handler `handleSend`: no-op when the input trims to empty or a request is in
flight; otherwise appends the user message, issues the request, and on
success appends the formatted bot reply and adopts the returned
conversation identifier if none was set (and the returned one is truthy);
on failure appends a bot-role error message instead. -/
def handleSend (fmtDate : String → String) (s : ChatState) (o : ChatOutcome) :
    ChatState × Option ChatRequest :=
  if jsTrimEmpty s.input || s.isLoading then (s, none)
  else
    let req := chatRequestOf s
    match o with
    | .ok r =>
      ({ messages := s.messages ++ [⟨.user, s.input⟩, ⟨.bot, formatResponse fmtDate r⟩]
         input := ""
         conversationId :=
           if s.conversationId.isNone && r.conversation_id != "" then some r.conversation_id
           else s.conversationId
         isLoading := false }, some req)
    | .err e =>
      ({ messages := s.messages ++ [⟨.user, s.input⟩, ⟨.bot, chatErrorMessage e⟩]
         input := ""
         conversationId := s.conversationId
         isLoading := false }, some req)

/-! ### C8: the conversation identifier protocol -/

/-- C8: a non-blocked `send` issues a request whose `conversation_id` is
exactly the session's current identifier — `null` before one is assigned;
the identifier of the first successful response is adopted when none was
set; once set it is never changed; and any identifier ever held by the
session came from a response, never from the client. -/
theorem C8_conversation_id (fd : String → String) (s : ChatState) (o : ChatOutcome)
    (h1 : jsTrimEmpty s.input = false) (h2 : s.isLoading = false) :
    ∃ req, (handleSend fd s o).2 = some req ∧
      req.conversation_id = s.conversationId ∧
      (s.conversationId = none → req.conversation_id = none) ∧
      (∀ r, o = .ok r → r.conversation_id ≠ "" → s.conversationId = none →
        (handleSend fd s o).1.conversationId = some r.conversation_id) ∧
      (∀ c, s.conversationId = some c → (handleSend fd s o).1.conversationId = some c) ∧
      (∀ c, (handleSend fd s o).1.conversationId = some c →
        s.conversationId = some c ∨ ∃ r, o = .ok r ∧ r.conversation_id = c) := by
  have hg : (jsTrimEmpty s.input || s.isLoading) = false := by rw [h1, h2]; rfl
  cases o with
  | ok r =>
    refine ⟨chatRequestOf s, ?_, rfl, fun hn => hn, ?_, ?_, ?_⟩
    · simp [handleSend, hg]
    · rintro r' hr' hne hnone
      cases hr'
      simp [handleSend, hg, hnone, hne]
    · intro c hc
      simp [handleSend, hg, hc]
    · intro c hc
      simp only [handleSend, hg, Bool.false_eq_true, if_false] at hc
      by_cases hcase : (s.conversationId.isNone && r.conversation_id != "") = true
      · simp only [hcase, if_true] at hc
        right
        exact ⟨r, rfl, Option.some_injective _ hc⟩
      · simp only [hcase, if_false] at hc
        exact Or.inl hc
  | err e =>
    refine ⟨chatRequestOf s, ?_, rfl, fun hn => hn, ?_, ?_, ?_⟩
    · simp [handleSend, hg]
    · rintro r' hr'
      cases hr'
    · intro c hc
      simp only [handleSend, hg, Bool.false_eq_true, if_false]
      exact hc
    · intro c hc
      simp only [handleSend, hg, Bool.false_eq_true, if_false] at hc
      exact Or.inl hc

/-- The initial chat state with the example question typed in. -/
def askState : ChatState := { input := "What is gender inequality?" }

/-- A successful response carrying a backend-assigned conversation id. -/
def convResponse : ChatResponse := ⟨"Gender inequality is ...", [], "conv-1"⟩

/-- Witness for `C8_conversation_id`: the first send of the session
carries `conversation_id = null` and adopts the response's identifier. -/
theorem C8_conversation_id_witness :
    (∃ req, (handleSend id askState (.ok convResponse)).2 = some req ∧
      req.conversation_id = none) ∧
    (handleSend id askState (.ok convResponse)).1.conversationId = some "conv-1" := by
  obtain ⟨req, hreq, hcid, hnull, hadopt, _, _⟩ :=
    C8_conversation_id id askState (.ok convResponse) (by decide) rfl
  exact ⟨⟨req, hreq, hnull rfl⟩, hadopt convResponse rfl (by decide) rfl⟩

/-! ### C10: chat sends never opt into the retry branch -/

/-- C10: every request `handleSend` issues carries the config
`{ timeout: 60000 }` with no `retry` field, so the chat interceptor's
error handler rejects it immediately: a failing chat request surfaces
after exactly one transmission with no backoff delay, and the
exponential-backoff branch is unreachable for such requests. -/
theorem C10_chat_send_no_retry (fd : String → String) (s : ChatState) (o : ChatOutcome)
    (req : ChatRequest) (h : (handleSend fd s o).2 = some req)
    (e : ReqError) (rest : List (Attempt ChatResponse)) :
    req.cfg = chatSendConfig ∧
    req.cfg.retry = none ∧
    chatInterceptorOnError req.cfg = .reject ∧
    runChatReq req.cfg (.failure e :: rest) = some (.failure e, 1, []) := by
  have hreq : req = chatRequestOf s := by
    rw [handleSend] at h
    split at h
    · exact absurd h (by simp)
    · cases o with
      | ok r =>
        simp only at h
        exact (Option.some_injective _ h).symm
      | err e' =>
        simp only at h
        exact (Option.some_injective _ h).symm
  subst hreq
  exact ⟨rfl, rfl, rfl, rfl⟩

/-- Witness for `C10_chat_send_no_retry` at the concrete first send. -/
theorem C10_chat_send_no_retry_witness :
    chatInterceptorOnError (chatRequestOf askState).cfg = .reject ∧
    runChatReq (chatRequestOf askState).cfg
      [(.failure .timeout : Attempt ChatResponse)]
      = some (.failure .timeout, 1, []) := by
  have h := C10_chat_send_no_retry id askState (.err .timeout) (chatRequestOf askState)
    (by decide) .timeout []
  exact ⟨h.2.2.1, h.2.2.2⟩

/-! ### C9: formatResponse strips and regenerates the Sources block -/

lemma takeWhile_replicate_append (p : Char → Bool) (a : Char) (hp : p a = true)
    (k : Nat) (l : List Char) :
    (List.replicate k a ++ l).takeWhile p = List.replicate k a ++ l.takeWhile p := by
  induction k with
  | zero => simp
  | succ n ih => simp [List.replicate_succ, List.takeWhile_cons, hp, ih]

lemma trailingNewlines_append_replicate (body : List Char) (k : Nat) :
    trailingNewlines (body ++ List.replicate k '\n') = k + trailingNewlines body := by
  unfold trailingNewlines
  rw [List.reverse_append, List.reverse_replicate,
    takeWhile_replicate_append _ _ (by decide)]
  simp

lemma take_append_full (l₁ l₂ : List Char) : (l₁ ++ l₂).take l₁.length = l₁ := by
  rw [List.take_append_eq_append_take, List.take_length, Nat.sub_self, List.take_zero,
    List.append_nil]

/-- C9: when the answer text is a body (not itself ending in newlines and
containing no `Sources:` occurrence before the block) followed by
newlines, the literal `Sources:` and arbitrary trailing junk, and the
structured sources array is non-empty, `formatResponse` discards the whole
inline block and appends the freshly generated markdown list; in
particular `"Answer text.\n\nSources:\nold-garbage"` with a single
structured source becomes `"Answer text."` followed by the regenerated
single-entry list. -/
theorem C9_format_strip (fd : String → String) (body junk : List Char) (k : Nat)
    (sources : List ChatSource) (cid : String)
    (hfm : findMarker (body ++ (List.replicate k '\n' ++ (sourcesMarker ++ junk)))
      = some (body.length + k))
    (hnl : trailingNewlines body = 0) (hs : sources ≠ []) :
    (formatResponse fd
        ⟨String.mk (body ++ (List.replicate k '\n' ++ (sourcesMarker ++ junk))), sources, cid⟩
      = String.mk body
        ++ ("\n\nSources:\n\n" ++ String.intercalate "\n\n" (sources.map (formatSource fd)))) ∧
    (∀ src : ChatSource,
      formatResponse fd ⟨"Answer text.\n\nSources:\nold-garbage", [src], cid⟩
        = "Answer text." ++ sourcesBlock fd [src]) := by
  constructor
  · have hemp : sources.isEmpty = false := by
      cases sources with
      | nil => exact absurd rfl hs
      | cons a l => rfl
    rw [formatResponse]
    have hstrip : stripSources (body ++ (List.replicate k '\n' ++ (sourcesMarker ++ junk)))
        = body := by
      rw [stripSources, hfm]
      have hassoc : body ++ (List.replicate k '\n' ++ (sourcesMarker ++ junk))
          = (body ++ List.replicate k '\n') ++ (sourcesMarker ++ junk) := by
        rw [List.append_assoc]
      have hlen : (body ++ List.replicate k '\n').length = body.length + k := by
        simp
      have htake : (body ++ (List.replicate k '\n' ++ (sourcesMarker ++ junk))).take
          (body.length + k) = body ++ List.replicate k '\n' := by
        rw [hassoc, ← hlen, take_append_full]
      simp only [htake]
      rw [trailingNewlines_append_replicate, hnl, Nat.add_zero, hlen,
        Nat.add_sub_cancel, take_append_full]
    show String.mk (stripSources _) ++ sourcesBlock fd sources = _
    rw [hstrip, sourcesBlock, hemp]
    rfl
  · intro src
    rw [formatResponse]
    show String.mk (stripSources ("Answer text.\n\nSources:\nold-garbage").data)
        ++ sourcesBlock fd [src] = _
    have : String.mk (stripSources ("Answer text.\n\nSources:\nold-garbage").data)
        = "Answer text." := by decide
    rw [this]

/-- Witness for `C9_format_strip` at the spec's concrete example. -/
theorem C9_format_strip_witness :
    formatResponse id ⟨"Answer text.\n\nSources:\nold-garbage", [⟨"T", "L", "S", "D"⟩], "c"⟩
      = "Answer text." ++ sourcesBlock id [⟨"T", "L", "S", "D"⟩] :=
  (C9_format_strip id ("Answer text.").data ("\nold-garbage").data 2
    [⟨"T", "L", "S", "D"⟩] "c" (by decide) (by decide)
    (List.cons_ne_nil _ _)).2 ⟨"T", "L", "S", "D"⟩

end GenderChatbot
